import Mathlib

/-!
Verification of the flow-graph model and interactive filter/highlight engine of
`src/tools/flow-analyzer/analyzer.py`.

The script emits a Mermaid flowchart (`generate_mermaid`) and an HTML page whose
embedded script (`updateFilter`) recomputes, on every checkbox change, the
visibility and highlight stroke of every node and every edge connector.  This
file shallowly embeds:

* the Mermaid line list produced by `generate_mermaid` (as the literal strings
  the Python code appends), together with a small tokenizer used only to read
  the node-declaration and edge statements back out of those lines;
* the static tables of the embedded script: `flowNodes`, `sharedNodes`,
  `edgeConnections`, `highlightColors`;
* the `updateFilter` computation, as a pure state transformer over an explicit
  DOM-state record (per-node visual, per-connector visual, per-label visual,
  and the number of rendered connector elements).
-/

/-- Lines appended by `generate_mermaid` (analyzer.py lines 73-169), in order.
Literal braces are written with the \x7b / \x7d escapes. -/
def mermaidLines : List String :=
  [ "flowchart TD"
  , "    subgraph INPUT[\"⌨️ 입력\"]"
  , "        I1([\"Y키 누름\"])"
  , "        I2([\"Y키 더블탭\"])"
  , "        I3([\"Shift+E\"])"
  , "        I4([\"D키\"])"
  , "    end"
  , "    subgraph CPP[\"🔵 C++ - 키보드 감지 & UI\"]"
  , "        C1([\"메인 루프\\n키 입력 감지\"])"
  , "        C2\x7b\"텍스트 입력 중?\"\x7d"
  , "        C3([\"0.4초 대기\"])"
  , "        C4\x7b\"더블탭?\\n250ms 내\"\x7d"
  , "        C5([\"앵커 그리드 표시\"])"
  , "        C6([\"토글 모드 ON\"])"
  , "        C7([\"이펙트 패널\"])"
  , "        C8\x7b\"D 메뉴\\nA/T/K 선택\"\x7d"
  , "        C9([\"앵커 적용\"])"
  , "    end"
  , "    subgraph ES[\"🟢 ExtendScript - AE 작업\"]"
  , "        E1([\"앵커 포인트 설정\"])"
  , "        E2([\"이펙트 추가\"])"
  , "        E3([\"이펙트 삭제\"])"
  , "        E4([\"키프레임 설정\"])"
  , "        E5([\"레이어 정렬\"])"
  , "        E6([\"텍스트 속성 변경\"])"
  , "    end"
  , "    subgraph CEP[\"🟡 CEP - 패널 & 설정\"]"
  , "        P1([\"설정 로드\"])"
  , "        P2([\"설정 저장\"])"
  , "        P3([\"정렬 패널\"])"
  , "        P4([\"텍스트 패널\"])"
  , "        P5([\"키프레임 패널\"])"
  , "    end"
  , "    subgraph OUTPUT[\"🟠 결과\"]"
  , "        O1([\"앵커 이동됨\"])"
  , "        O2([\"이펙트 적용됨\"])"
  , "        O3([\"키프레임 생성됨\"])"
  , "        O4([\"레이어 정렬됨\"])"
  , "        O5([\"텍스트 변경됨\"])"
  , "    end"
  , ""
  , "    I1 -->|\"Y키 신호\"| C1"
  , "    I2 -->|\"더블탭 신호\"| C1"
  , "    I3 -->|\"Shift+E 신호\"| C7"
  , "    I4 -->|\"D키 신호\"| C8"
  , "    C1 -->|\"현재 포커스 창\"| C2"
  , "    C2 -->|\"아니오\"| C3"
  , "    C2 -->|\"예\"| X1[\"무시\"]"
  , "    C3 -->|\"0.4초 후\"| C4"
  , "    C4 -->|\"홀드 중\"| C5"
  , "    C4 -->|\"더블탭 감지\"| C6"
  , "    C6 -->|\"고정 모드\"| C5"
  , "    C5 -->|\"선택한 셀 위치\"| C9"
  , "    C9 -->|\"스크립트 코드\"| E1"
  , "    E1 -->|\"x, y 좌표\"| O1"
  , "    C7 -->|\"이펙트 이름\"| E2"
  , "    E2 -->|\"이펙트 객체\"| O2"
  , "    C7 -->|\"이펙트 번호\"| E3"
  , "    E3 -->|\"삭제 완료\"| O2"
  , "    C8 -->|\"A 선택\"| P3"
  , "    C8 -->|\"T 선택\"| P4"
  , "    C8 -->|\"K 선택\"| P5"
  , "    P3 -->|\"정렬 방향\"| E5"
  , "    P4 -->|\"텍스트 설정\"| E6"
  , "    P5 -->|\"키프레임 설정값\"| E4"
  , "    E4 -->|\"시간, 값\"| O3"
  , "    E5 -->|\"위치 값\"| O4"
  , "    E6 -->|\"속성 값\"| O5"
  , "    C5 -.->|\"그리드 설정\"| P1"
  , "    P2 -.->|\"저장된 설정\"| C5"
  , ""
  , "    style INPUT fill:#082a5a,color:#fff,stroke:#1565c0,stroke-width:2px"
  , "    style CPP fill:#041c2c,color:#fff,stroke:#1565c0,stroke-width:2px"
  , "    style ES fill:#0a2010,color:#fff,stroke:#2e7d32,stroke-width:2px"
  , "    style CEP fill:#4a3505,color:#fff,stroke:#f9a825,stroke-width:2px"
  , "    style OUTPUT fill:#4a1505,color:#fff,stroke:#e65100,stroke-width:2px"
  , "    style X1 fill:#333,color:#fff"
  ]

/-- The string `generate_mermaid` returns: the lines joined with newlines. -/
def generate_mermaid : String :=
  String.intercalate "\n" mermaidLines

/-- Split a character list at spaces (accumulator-style; used to read tokens of
a Mermaid line back out of the emitted text). -/
def splitAtSpaces : List Char → List Char → List (List Char)
  | [], acc => [acc.reverse]
  | c :: cs, acc =>
      if c = ' ' then acc.reverse :: splitAtSpaces cs []
      else splitAtSpaces cs (c :: acc)

/-- Nonempty whitespace-separated tokens of a line. -/
def lineToks (s : String) : List (List Char) :=
  (splitAtSpaces s.data []).filter (fun t => t ≠ [])

/-- Leading identifier of a token: its longest alphanumeric prefix. -/
def identOf (t : List Char) : List Char :=
  t.takeWhile Char.isAlphanum

/-- A Mermaid edge statement: its second token is an arrow (starts with a dash),
e.g. `I1 -->|"Y키 신호"| C1` or `C5 -.->|"그리드 설정"| P1`. -/
def isEdgeStmt (s : String) : Bool :=
  match lineToks s with
  | _ :: t :: _ => t.headD ' ' == '-'
  | _ => false

/-- Node id declared by a standalone node statement such as `I1(["Y키 누름"])`
or `C2{"텍스트 입력 중?"}`: the first token is an identifier immediately
followed by a shape opener. -/
def declIdOf (s : String) : Option String :=
  if isEdgeStmt s then none
  else
    match lineToks s with
    | t :: _ =>
        let id := identOf t
        let rest := t.drop id.length
        if id ≠ [] ∧ (rest.headD ' ' = '(' ∨ rest.headD ' ' = '\x7b') then
          some (String.mk id)
        else none
    | [] => none

/-- Node id declared inline inside an edge statement, as in
`C2 -->|"예"| X1["무시"]`: the last token is an identifier followed by `[`. -/
def inlineDeclIdOf (s : String) : Option String :=
  if isEdgeStmt s then
    match (lineToks s).getLast? with
    | some t =>
        let id := identOf t
        let rest := t.drop id.length
        if id ≠ [] ∧ rest.headD ' ' = '[' then some (String.mk id) else none
    | none => none
  else none

/-- All node ids declared by `generate_mermaid`: standalone declarations in
line order, then inline declarations. -/
def declaredNodeIds : List String :=
  mermaidLines.filterMap declIdOf ++ mermaidLines.filterMap inlineDeclIdOf

/-- The `(source, target)` pair of an edge statement: the identifiers of its
first and last tokens. -/
def edgeSrcTgt (s : String) : String × String :=
  let ts := lineToks s
  (String.mk (identOf (ts.headD [])), String.mk (identOf (ts.getLastD [])))

/-- The `(source, target)` pairs of the edge statements emitted by
`generate_mermaid`, in emission order. -/
def mermaidEdgePairs : List (String × String) :=
  (mermaidLines.filter isEdgeStmt).map edgeSrcTgt

/-- The `flowNodes['y']` list of the embedded script (analyzer.py line 359). -/
def flowNodesY : List String := ["I1", "X1"]

/-- The `flowNodes['yy']` list (line 360). -/
def flowNodesYY : List String := ["I2", "C6"]

/-- The `flowNodes['e']` list (line 361). -/
def flowNodesE : List String := ["I3", "C7", "E2", "E3", "O2"]

/-- The `flowNodes['d']` list (line 362). -/
def flowNodesD : List String :=
  ["I4", "C8", "P3", "P4", "P5", "E4", "E5", "E6", "O3", "O4", "O5"]

/-- The `sharedNodes['y_yy']` list (line 367): nodes shared by the Y and YY
categories. -/
def sharedNodes_y_yy : List String :=
  ["C1", "C2", "C3", "C4", "C5", "C9", "E1", "O1", "P1", "P2"]

/-- The `edgeConnections` array (lines 371-381): the declared `(source, target)`
pair of each rendered connector, by position. -/
def edgeConnections : List (String × String) :=
  [ ("I1", "C1"), ("I2", "C1"), ("I3", "C7"), ("I4", "C8")
  , ("C1", "C2"), ("C2", "C3"), ("C2", "X1"), ("C3", "C4")
  , ("C4", "C5"), ("C4", "C6"), ("C6", "C5"), ("C5", "C9")
  , ("C9", "E1"), ("E1", "O1")
  , ("C7", "E2"), ("E2", "O2"), ("C7", "E3"), ("E3", "O2")
  , ("C8", "P3"), ("C8", "P4"), ("C8", "P5")
  , ("P3", "E5"), ("P4", "E6"), ("P5", "E4")
  , ("E4", "O3"), ("E5", "O4"), ("E6", "O5")
  , ("C5", "P1"), ("P2", "C5")
  ]

/-- The `highlightColors` table (lines 384-389). -/
def highlightColors (k : String) : String :=
  if k = "y" then "#4fc3f7"
  else if k = "yy" then "#81d4fa"
  else if k = "e" then "#81c784"
  else if k = "d" then "#ffb74d"
  else ""

/-- The checkbox state read at the top of `updateFilter` (lines 392-395):
one flag per filter category, in the category order y, yy, e, d. -/
structure FilterState where
  y : Bool
  yy : Bool
  e : Bool
  d : Bool
deriving DecidableEq, Fintype

/-- `activeCount` (line 417): the number of checked categories. -/
def activeCount (fs : FilterState) : Nat :=
  (([fs.y, fs.yy, fs.e, fs.d].filter (fun b => b)).length)

/-- `shouldHighlight` (line 418): at least one category checked. -/
def shouldHighlight (fs : FilterState) : Bool :=
  decide (1 ≤ activeCount fs)

/-- `allChecked` (line 419): all four categories checked. -/
def allChecked (fs : FilterState) : Bool :=
  decide (activeCount fs = 4)

/-- `noneChecked` (line 420): no category checked. -/
def noneChecked (fs : FilterState) : Bool :=
  decide (activeCount fs = 0)

/-- Membership of a node id in the `activeNodes` set built in lines 398-414:
the union of the checked categories' `flowNodes` lists, plus the shared
`y_yy` list when Y or YY is checked. -/
def activeNodes (fs : FilterState) (n : String) : Bool :=
  (fs.y && flowNodesY.contains n) ||
  (fs.yy && flowNodesYY.contains n) ||
  (fs.e && flowNodesE.contains n) ||
  (fs.d && flowNodesD.contains n) ||
  ((fs.y || fs.yy) && sharedNodes_y_yy.contains n)

/-- One `flowNodes[cat].forEach(n => nodeColors[n] = color)` block (lines
402-405): when `checked`, every id in `ns` is (re)assigned `c`, overwriting
any earlier assignment; otherwise the map is unchanged. -/
def colorStep (checked : Bool) (ns : List String) (c : String)
    (m : String → Option String) : String → Option String :=
  fun n => if checked ∧ n ∈ ns then some c else m n

/-- The shared-node block (lines 408-414): when Y or YY is checked, each id of
`sharedNodes_y_yy` that has no color yet gets Y's color if Y is checked,
otherwise YY's color; assigned colors are kept (`if (!nodeColors[n])`). -/
def sharedColorStep (fs : FilterState) (m : String → Option String) :
    String → Option String :=
  fun n =>
    if (fs.y ∨ fs.yy) ∧ n ∈ sharedNodes_y_yy then
      match m n with
      | some c => some c
      | none => some (if fs.y then highlightColors "y" else highlightColors "yy")
    else m n

/-- The `nodeColors` map after lines 398-414: the four unique-node blocks run
in the order y, yy, e, d (a later block overwrites), then the shared block. -/
def nodeColors (fs : FilterState) : String → Option String :=
  sharedColorStep fs
    (colorStep fs.d flowNodesD (highlightColors "d")
      (colorStep fs.e flowNodesE (highlightColors "e")
        (colorStep fs.yy flowNodesYY (highlightColors "yy")
          (colorStep fs.y flowNodesY (highlightColors "y") (fun _ => none)))))

/-- Visual outcome for one node element: shown or dimmed (`node-hidden` class),
and the stroke highlight.  `stroke = some c` stands for
`stroke: c; stroke-width: 3px`; `none` stands for both cleared. -/
structure NodeVisual where
  visible : Bool
  stroke : Option String
deriving DecidableEq

/-- The per-node branch of `updateFilter` (lines 423-444). -/
def nodeVisual (fs : FilterState) (n : String) : NodeVisual :=
  if allChecked fs || noneChecked fs || activeNodes fs n then
    { visible := true
      stroke := if shouldHighlight fs then nodeColors fs n else none }
  else
    { visible := false, stroke := none }

/-- Visual outcome for one connector element: the opacity string written to its
paths, and the stroke highlight (`some c` stands for
`stroke: c; stroke-width: 2.5px`; `none` for both cleared). -/
structure EdgeVisual where
  opacity : String
  stroke : Option String
deriving DecidableEq

/-- The branch condition of line 491: a connector is shown when filtering is
degenerate or either declared endpoint is active (the OR rule). -/
def edgeShown (fs : FilterState) (i : Nat) : Bool :=
  allChecked fs || noneChecked fs ||
    activeNodes fs (edgeConnections.getD i ("", "")).1 ||
    activeNodes fs (edgeConnections.getD i ("", "")).2

/-- `edgeColor` (line 485): the source endpoint's color, else the target's. -/
def edgeColor (fs : FilterState) (i : Nat) : Option String :=
  (nodeColors fs (edgeConnections.getD i ("", "")).1).orElse
    (fun _ => nodeColors fs (edgeConnections.getD i ("", "")).2)

/-- The stroke written to a shown connector (lines 494-500): the endpoint color
when highlighting, otherwise cleared. -/
def edgeStroke (fs : FilterState) (i : Nat) : Option String :=
  if shouldHighlight fs then edgeColor fs i else none

/-- The per-connector branch of `updateFilter` (lines 477-507) for the
connector at index `i` whose previous visual state is `prev`.  The dimmed
branch (lines 503-506) writes only the opacity: the previous stroke remains. -/
def edgeApply (fs : FilterState) (i : Nat) (prev : EdgeVisual) : EdgeVisual :=
  if edgeShown fs i then
    { opacity := "1", stroke := edgeStroke fs i }
  else
    { opacity := "0.1", stroke := prev.stroke }

/-- State of the rendered page that `updateFilter` reads and writes: the number
of connector elements the SVG exposes (`edgeGs.length`), the visual state of
every node element (by id), of every connector element (by position), and the
visibility of every edge-label element (by position). -/
structure DomState where
  renderedCount : Nat
  nodes : String → NodeVisual
  edges : Nat → EdgeVisual
  labels : Nat → Bool

/-- The whole `updateFilter` handler (lines 391-517) as a state transformer:
every node element is restyled from the checkbox state alone; the connector at
index `i` is restyled only when `i` is inside both the rendered connector list
and `edgeConnections` (line 478's early return); edge labels are untouched
(lines 509-516). -/
def updateFilter (fs : FilterState) (st : DomState) : DomState :=
  { renderedCount := st.renderedCount
    nodes := fun n => nodeVisual fs n
    edges := fun i =>
      if i < st.renderedCount ∧ i < edgeConnections.length then
        edgeApply fs i (st.edges i)
      else st.edges i
    labels := st.labels }

/-- The diagnostic `updateFilter` always prints (line 474): the number of found
connector elements next to the number of declared connections. -/
def updateFilterLog (st : DomState) : Nat × Nat :=
  (st.renderedCount, edgeConnections.length)

/-- A page state as initially rendered: 29 connectors, everything shown and
unstyled. -/
def initialDom : DomState :=
  { renderedCount := edgeConnections.length
    nodes := fun _ => { visible := true, stroke := none }
    edges := fun _ => { opacity := "1", stroke := none }
    labels := fun _ => true }

/-- A page state whose renderer produced fewer connector elements (20) than
the 29 declared connections — the structural-mismatch situation. -/
def mismatchDom : DomState :=
  { renderedCount := 20
    nodes := fun _ => { visible := true, stroke := none }
    edges := fun _ => { opacity := "1", stroke := none }
    labels := fun _ => true }

/-- The empty active set: no checkbox checked. -/
def fsNone : FilterState := ⟨false, false, false, false⟩

/-- The full active set: all four checkboxes checked (the page's initial
state, analyzer.py lines 312-324). -/
def fsAll : FilterState := ⟨true, true, true, true⟩

/-- The categories in the order the `updateFilter` blocks process them. -/
def categoryOrder : List String := ["y", "yy", "e", "d"]

/-- Checkbox flag of a category id. -/
def isActiveCat (fs : FilterState) (c : String) : Bool :=
  if c = "y" then fs.y
  else if c = "yy" then fs.yy
  else if c = "e" then fs.e
  else if c = "d" then fs.d
  else false

/-- Ownership in the sense of the data model: a category owns its unique
`flowNodes` list, and Y and YY additionally own the shared `y_yy` nodes. -/
def ownedBy (c : String) (n : String) : Bool :=
  if c = "y" then flowNodesY.contains n || sharedNodes_y_yy.contains n
  else if c = "yy" then flowNodesYY.contains n || sharedNodes_y_yy.contains n
  else if c = "e" then flowNodesE.contains n
  else if c = "d" then flowNodesD.contains n
  else false

/-- The active categories owning node `n`, in processing order. -/
def activeOwners (fs : FilterState) (n : String) : List String :=
  categoryOrder.filter (fun c => isActiveCat fs c && ownedBy c n)

/-- Modelled from the spec: the error taxonomy of §7 for malformed graph
construction; the source builds its graph from inline literals and contains no
such error type. -/
inductive ConfigurationError where
  | danglingEdge : String → String → ConfigurationError
  | invalidPrecedence : List String → ConfigurationError
deriving DecidableEq

/-- Modelled from the spec: a `SharedNodeGroup` record of §3; the source only
has the single inline `sharedNodes['y_yy']` list with covering categories Y
and YY and precedence `[Y, YY]`. -/
structure SharedNodeGroup where
  coveringCategoryIds : List String
  nodeIds : List String
  colorPrecedence : List String
deriving DecidableEq

/-- Modelled from the spec: the Graph Definition record of §4.1. -/
structure GraphDefinition where
  nodes : List String
  edges : List (String × String)
  sharedGroups : List SharedNodeGroup
deriving DecidableEq

/-- Modelled from the spec: the validating constructor of §4.1, absent from
the source (its graph is hard-coded and never validated).  Construction fails
if an edge endpoint is not a declared node id, or if a group's
`colorPrecedence` lists a category id outside its `coveringCategoryIds`. -/
def mkGraphDefinition (nodes : List String) (edges : List (String × String))
    (groups : List SharedNodeGroup) : Except ConfigurationError GraphDefinition :=
  match edges.find? (fun e => !(decide (e.1 ∈ nodes)) || !(decide (e.2 ∈ nodes))) with
  | some e => Except.error (ConfigurationError.danglingEdge e.1 e.2)
  | none =>
      match groups.find?
          (fun g => g.colorPrecedence.any
            (fun c => !(decide (c ∈ g.coveringCategoryIds)))) with
      | some g => Except.error (ConfigurationError.invalidPrecedence g.colorPrecedence)
      | none => Except.ok ⟨nodes, edges, groups⟩

theorem edgeApply_opacity (fs : FilterState) (i : Nat) (prev : EdgeVisual) :
    (edgeApply fs i prev).opacity = if edgeShown fs i then "1" else "0.1" := by
  by_cases h : edgeShown fs i = true <;> simp [edgeApply, h]

theorem edgeApply_idem (fs : FilterState) (i : Nat) (prev : EdgeVisual) :
    edgeApply fs i (edgeApply fs i prev) = edgeApply fs i prev := by
  by_cases h : edgeShown fs i = true <;> simp [edgeApply, h]

/-- C1 counterexample: with the full active set (the page's initial state),
`updateFilter` does apply highlight colors — node `I1` gets Y's stroke color
and connector 0 gets Y's stroke color — contradicting "no highlight color is
applied" for the full set.  (`shouldHighlight` is true whenever at least one
category is checked, so the `allChecked` case still styles strokes.) -/
theorem degenerate_full_set_colors_nodes :
    (nodeVisual fsAll "I1").stroke = some "#4fc3f7" ∧
    ((updateFilter fsAll initialDom).edges 0).stroke = some "#4fc3f7" := by
  decide

/-- C1 amended: under the empty active set every node and connector is visible
and uncolored; under the full active set every node and connector is visible
but carries a highlight color (its covering category's, resp. an endpoint's). -/
theorem degenerate_sets_visibility :
    (∀ n ∈ declaredNodeIds,
      nodeVisual fsNone n = { visible := true, stroke := none } ∧
      (nodeVisual fsAll n).visible = true ∧
      (nodeVisual fsAll n).stroke.isSome = true) ∧
    (∀ st : DomState, ∀ i : Nat, i < st.renderedCount → i < edgeConnections.length →
      (updateFilter fsNone st).edges i = { opacity := "1", stroke := none } ∧
      ((updateFilter fsAll st).edges i).opacity = "1" ∧
      ((updateFilter fsAll st).edges i).stroke.isSome = true) := by
  constructor
  · decide
  · intro st i h1 h2
    have hall : ∀ j < edgeConnections.length,
        edgeShown fsNone j = true ∧ edgeStroke fsNone j = none ∧
        edgeShown fsAll j = true ∧ (edgeStroke fsAll j).isSome = true := by
      decide
    obtain ⟨ha, hb, hc, hd⟩ := hall i h2
    have he : (updateFilter fsNone st).edges i = edgeApply fsNone i (st.edges i) := by
      simp [updateFilter, h1, h2]
    have hf : (updateFilter fsAll st).edges i = edgeApply fsAll i (st.edges i) := by
      simp [updateFilter, h1, h2]
    rw [he, hf]
    refine ⟨?_, ?_, ?_⟩
    · simp [edgeApply, ha, hb]
    · simp [edgeApply, hc]
    · simp [edgeApply, hc, hd]

theorem degenerate_sets_visibility_witness :
    nodeVisual fsNone "I1" = { visible := true, stroke := none } ∧
    (updateFilter fsNone initialDom).edges 0 = { opacity := "1", stroke := none } ∧
    ((updateFilter fsAll initialDom).edges 0).stroke.isSome = true :=
  ⟨(degenerate_sets_visibility.1 "I1" (by decide)).1,
   (degenerate_sets_visibility.2 initialDom 0 (by decide) (by decide)).1,
   (degenerate_sets_visibility.2 initialDom 0 (by decide) (by decide)).2.2⟩

/-- C2: for a non-degenerate active set and an index inside both the rendered
connector list and the declared edge sequence, the connector is shown
(opacity "1" rather than "0.1") iff its declared source or target endpoint is
in the activation set. -/
theorem edge_or_rule (fs : FilterState) (st : DomState) (i : Nat)
    (hr : i < st.renderedCount) (hd : i < edgeConnections.length)
    (hna : allChecked fs = false) (hnn : noneChecked fs = false) :
    (((updateFilter fs st).edges i).opacity = "1" ↔
      (activeNodes fs (edgeConnections.getD i ("", "")).1 = true ∨
       activeNodes fs (edgeConnections.getD i ("", "")).2 = true)) := by
  have hedge : (updateFilter fs st).edges i = edgeApply fs i (st.edges i) := by
    simp [updateFilter, hr, hd]
  rw [hedge]
  unfold edgeApply edgeShown
  rw [hna, hnn]
  generalize activeNodes fs (edgeConnections.getD i ("", "")).1 = a
  generalize activeNodes fs (edgeConnections.getD i ("", "")).2 = b
  cases a <;> cases b <;> simp

theorem edge_or_rule_witness :
    ((updateFilter ⟨true, false, false, false⟩ initialDom).edges 0).opacity = "1" ↔
      (activeNodes ⟨true, false, false, false⟩ (edgeConnections.getD 0 ("", "")).1 = true ∨
       activeNodes ⟨true, false, false, false⟩ (edgeConnections.getD 0 ("", "")).2 = true) :=
  edge_or_rule ⟨true, false, false, false⟩ initialDom 0 (by decide) (by decide)
    (by decide) (by decide)

/-- C3: the `edgeConnections` table has 29 entries and equals, element for
element and in the same order, the `(source, target)` pairs of the edge
statements emitted by `generate_mermaid`, so a positional lookup at index `i`
retrieves the declared pair of the i-th emitted connector. -/
theorem edge_table_matches_emission :
    edgeConnections.length = 29 ∧ mermaidEdgePairs = edgeConnections := by
  decide

/-- C4 counterexample: `updateFilter` does carry hidden state in the stroke of
dimmed connectors.  With A = only E checked and B = only Y checked, connector 0
(`I1 --> C1`) is dimmed under A and colored under B; after A, B, A its stroke
still holds B's color, while a single invocation with A leaves it unstyled. -/
theorem visual_state_carries_edge_stroke :
    ((updateFilter ⟨false, false, true, false⟩
        (updateFilter ⟨true, false, false, false⟩
          (updateFilter ⟨false, false, true, false⟩ initialDom))).edges 0).stroke ≠
      ((updateFilter ⟨false, false, true, false⟩ initialDom).edges 0).stroke := by
  decide

/-- C4 amended: `updateFilter` is idempotent (running it twice with the same
active set from the same state equals running it once), and after A, B, A the
nodes, every connector's visibility (opacity), the labels and the connector
count all match a single invocation with A; only the stroke styling of a
connector dimmed under A may retain the color B applied, because the dimmed
branch writes opacity alone. -/
theorem visual_state_recompute (A B : FilterState) (st : DomState) :
    updateFilter A (updateFilter A st) = updateFilter A st ∧
    (updateFilter A (updateFilter B (updateFilter A st))).nodes =
      (updateFilter A st).nodes ∧
    (∀ i : Nat, ((updateFilter A (updateFilter B (updateFilter A st))).edges i).opacity =
      ((updateFilter A st).edges i).opacity) ∧
    (updateFilter A (updateFilter B (updateFilter A st))).labels =
      (updateFilter A st).labels ∧
    (updateFilter A (updateFilter B (updateFilter A st))).renderedCount =
      (updateFilter A st).renderedCount := by
  obtain ⟨rc, ns, es, ls⟩ := st
  refine ⟨?_, rfl, ?_, rfl, rfl⟩
  · unfold updateFilter
    congr 1
    funext i
    by_cases h : i < rc ∧ i < edgeConnections.length
    · simp [h, edgeApply_idem]
    · simp [h]
  · intro i
    by_cases h : i < rc ∧ i < edgeConnections.length
    · simp [updateFilter, h, edgeApply_opacity]
    · simp [updateFilter, h]

/-- C5: a shared node is in the activation set exactly when Y or YY is checked,
and its recorded color follows the precedence [Y, YY]: Y's color whenever Y is
checked, otherwise YY's color when YY is checked, otherwise no color. -/
theorem shared_group_activation (fs : FilterState) (n : String)
    (hn : n ∈ sharedNodes_y_yy) :
    activeNodes fs n = (fs.y || fs.yy) ∧
    nodeColors fs n = (if fs.y then some (highlightColors "y")
      else if fs.yy then some (highlightColors "yy") else none) := by
  have h : ∀ m ∈ sharedNodes_y_yy, ∀ gs : FilterState,
      activeNodes gs m = (gs.y || gs.yy) ∧
      nodeColors gs m = (if gs.y then some (highlightColors "y")
        else if gs.yy then some (highlightColors "yy") else none) := by
    decide
  exact h n hn fs

theorem shared_group_activation_witness :
    activeNodes ⟨false, true, false, false⟩ "C1" = (false || true) ∧
    nodeColors ⟨false, true, false, false⟩ "C1" =
      (if false then some (highlightColors "y")
        else if true then some (highlightColors "yy") else none) :=
  shared_group_activation ⟨false, true, false, false⟩ "C1" (by decide)

/-- C6: for a node owned by at least two simultaneously active categories (in
this graph: a shared node while both Y and YY are active), the recorded color
is that of the first active owning category in processing order — the first
writer wins and no later category overwrites it. -/
theorem first_writer_wins (fs : FilterState) (n : String)
    (hn : n ∈ declaredNodeIds) (hmulti : 2 ≤ (activeOwners fs n).length) :
    nodeColors fs n = (activeOwners fs n).head?.map highlightColors := by
  have h : ∀ m ∈ declaredNodeIds, ∀ gs : FilterState,
      2 ≤ (activeOwners gs m).length →
      nodeColors gs m = (activeOwners gs m).head?.map highlightColors := by
    decide
  exact h n hn fs hmulti

theorem first_writer_wins_witness :
    nodeColors ⟨true, true, false, false⟩ "C1" =
      (activeOwners ⟨true, true, false, false⟩ "C1").head?.map highlightColors :=
  first_writer_wins ⟨true, true, false, false⟩ "C1" (by decide) (by decide)

/-- C7: when the rendered connector count differs from the declared edge count,
`updateFilter` still runs to completion (it is a total function): it restyles
exactly the connectors below `min renderedCount edgeConnections.length`, leaves
every connector at or beyond that bound in its previous state, and always
reports both counts as a console diagnostic. -/
theorem structural_mismatch_graceful (fs : FilterState) (st : DomState)
    (i j : Nat) (hi : i < min st.renderedCount edgeConnections.length)
    (hj : min st.renderedCount edgeConnections.length ≤ j) :
    (updateFilter fs st).edges i = edgeApply fs i (st.edges i) ∧
    (updateFilter fs st).edges j = st.edges j ∧
    updateFilterLog st = (st.renderedCount, edgeConnections.length) := by
  obtain ⟨h1, h2⟩ := Nat.lt_min.mp hi
  have hjn : ¬(j < st.renderedCount ∧ j < edgeConnections.length) := by
    rintro ⟨ha, hb⟩
    exact absurd (Nat.lt_min.mpr ⟨ha, hb⟩) (Nat.not_lt.mpr hj)
  refine ⟨?_, ?_, rfl⟩
  · simp [updateFilter, h1, h2]
  · simp [updateFilter, hjn]

theorem structural_mismatch_graceful_witness :
    (updateFilter fsAll mismatchDom).edges 0 = edgeApply fsAll 0 (mismatchDom.edges 0) ∧
    (updateFilter fsAll mismatchDom).edges 20 = mismatchDom.edges 20 ∧
    updateFilterLog mismatchDom = (20, 29) :=
  structural_mismatch_graceful fsAll mismatchDom 0 20 (by decide) (by decide)

/-- C8 (constructor modelled from the spec): construction fails with a
`ConfigurationError` whenever some edge endpoint is not a declared node id, or
some shared group's `colorPrecedence` lists a category id outside its
`coveringCategoryIds`. -/
theorem construction_rejects_invalid (ns : List String)
    (es : List (String × String)) (gs : List SharedNodeGroup)
    (h : (∃ e ∈ es, e.1 ∉ ns ∨ e.2 ∉ ns) ∨
         (∃ g ∈ gs, ∃ c ∈ g.colorPrecedence, c ∉ g.coveringCategoryIds)) :
    ∃ err, mkGraphDefinition ns es gs = Except.error err := by
  unfold mkGraphDefinition
  split
  · exact ⟨_, rfl⟩
  next h1 =>
    split
    · exact ⟨_, rfl⟩
    next h2 =>
      exfalso
      rcases h with ⟨e, he, hbad⟩ | ⟨g, hg, c, hc, hbad⟩
      · rw [List.find?_eq_none] at h1
        have hmem := h1 e he
        simp only [Bool.or_eq_true, Bool.not_eq_true', decide_eq_false_iff_not,
          not_or, not_not] at hmem
        rcases hbad with hb | hb
        · exact hb hmem.1
        · exact hb hmem.2
      · rw [List.find?_eq_none] at h2
        have hmem := h2 g hg
        simp only [List.any_eq_true, Bool.not_eq_true', decide_eq_false_iff_not,
          not_exists, not_and, not_not] at hmem
        exact hbad (hmem c hc)

theorem construction_rejects_invalid_witness :
    ∃ err, mkGraphDefinition ["A"] [("A", "B")] [] = Except.error err :=
  construction_rejects_invalid ["A"] [("A", "B")] [] (by decide)

/-- C9: `updateFilter` never touches edge-label elements — their visibility
after any invocation, under any active set and from any page state, is exactly
what it was before. -/
theorem edge_labels_never_filtered (fs : FilterState) (st : DomState) :
    (updateFilter fs st).labels = st.labels := rfl

/-- C10: the four unique owned-node lists and the shared list are pairwise
disjoint (their concatenation has no duplicate), together they are exactly the
set of node ids declared by `generate_mermaid`, and there are 30 of those. -/
theorem filter_lists_partition_nodes :
    (flowNodesY ++ flowNodesYY ++ flowNodesE ++ flowNodesD ++ sharedNodes_y_yy).Nodup ∧
    (flowNodesY ++ flowNodesYY ++ flowNodesE ++ flowNodesD ++ sharedNodes_y_yy).Perm
      declaredNodeIds ∧
    declaredNodeIds.length = 30 := by
  decide
